/-
Verification of the bbff-brewco photo-sharing handlers.

Shallow embedding of the repository's TypeScript modules:
  * `src/utils/validation.ts`        — namespace `Validation`
  * `src/utils/image-processing.ts`  — namespace `ImageProcessing`
  * `functions/api/list.ts`          — namespace `ListHandler`
  * `functions/api/upload.ts`        — namespace `UploadHandler`
  * `functions/api/images/[key].ts`  — namespace `ServeHandler`

Modelling conventions:
  * Strings are Lean `String` / `List Char`; JavaScript `toLowerCase`
    is modelled on the ASCII fragment (`Char.toLower`), which covers
    every character class the code distinguishes.
  * A JavaScript number produced by `parseInt` is an `Option Int`,
    with `none` standing for `NaN`.
  * An optional field of a TypeScript object is an `Option`, with
    `none` standing for `undefined`.
  * File contents are byte lists (`List Nat`); reads that may throw
    carry explicit `readOk` flags, and a `try/catch` appears as the
    handling of those flags or of an `Except` value.
  * Asynchronous effects (object-store reads/writes, cache calls,
    image-service calls) are recorded in explicit effect lists or
    given by oracle functions supplied as arguments.
-/
import Mathlib

section JsPrimitives

/-- Whitespace skipped by the JavaScript `parseInt`. -/
def isJsWhitespace (c : Char) : Bool :=
  c = ' ' || c = '\t' || c = '\n' || c = '\r'

/-- Decimal digit value of a character, if any. -/
def decDigitVal (c : Char) : Option Nat :=
  if '0' ≤ c && c ≤ '9' then some (c.toNat - 48) else none

/-- Hexadecimal digit value of a character, if any. -/
def hexDigitVal (c : Char) : Option Nat :=
  if '0' ≤ c && c ≤ '9' then some (c.toNat - 48)
  else if 'a' ≤ c && c ≤ 'f' then some (c.toNat - 87)
  else if 'A' ≤ c && c ≤ 'F' then some (c.toNat - 55)
  else none

/-- Accumulate the leading digits of `cs` in base `radix`. -/
def parseDigits (digitVal : Char → Option Nat) (radix : Nat) (cs : List Char) : Option Nat :=
  let ds := (cs.takeWhile (fun c => (digitVal c).isSome)).filterMap digitVal
  if ds.isEmpty then none else some (ds.foldl (fun acc d => acc * radix + d) 0)

/-- The JavaScript `parseInt(s)` (radix auto-detected): skip whitespace,
read an optional sign, then leading decimal digits, or hexadecimal
digits after a `0x`/`0X` marker; `none` models `NaN`. -/
def jsParseInt (s : String) : Option Int :=
  let cs := s.data.dropWhile isJsWhitespace
  let signed : Int × List Char :=
    match cs with
    | '-' :: rest => (-1, rest)
    | '+' :: rest => (1, rest)
    | rest => (1, rest)
  let body : Option Nat :=
    match signed.2 with
    | '0' :: 'x' :: rest => parseDigits hexDigitVal 16 rest
    | '0' :: 'X' :: rest => parseDigits hexDigitVal 16 rest
    | rest => parseDigits decDigitVal 10 rest
  body.map (fun n => signed.1 * (n : Int))

/-- Truthiness of a JavaScript number (`NaN` and `0` are falsy). -/
def truthyNum : Option Int → Bool
  | none => false
  | some n => n != 0

/-- Truthiness of a possibly-undefined JavaScript number. -/
def truthyOptNum : Option (Option Int) → Bool
  | none => false
  | some jn => truthyNum jn

/-- Truthiness of a possibly-null JavaScript string (`""` is falsy). -/
def truthyStr : Option String → Bool
  | none => false
  | some s => s != ""

/-- Truthiness of a possibly-undefined JavaScript boolean. -/
def truthyBool : Option Bool → Bool
  | none => false
  | some b => b

/-- The JavaScript `x || 'auto'` applied to a possibly-undefined number,
followed by string conversion, as used in both cache-key builders. -/
def jsNumOrAuto (x : Option (Option Int)) : String :=
  match x with
  | some (some n) => if n = 0 then "auto" else toString n
  | _ => "auto"

/-- The JavaScript `x || 'auto'` applied to a possibly-undefined string. -/
def jsStrOrAuto (x : Option String) : String :=
  match x with
  | some s => if s = "" then "auto" else s
  | none => "auto"

/-- The JavaScript `s.includes(pat)` for a non-empty pattern. -/
def jsIncludes (s pat : String) : Bool :=
  (s.splitOn pat).length != 1

end JsPrimitives

namespace Validation

/-- Upload constraints, `src/types/index.ts`. -/
structure UploadConstraints where
  maxFileSize : Nat
  allowedTypes : List String
  maxFiles : Nat
deriving Repr, DecidableEq

/-- The `DEFAULT_CONSTRAINTS` of `validation.ts` lines 8-12. -/
def DEFAULT_CONSTRAINTS : UploadConstraints :=
  { maxFileSize := 10 * 1024 * 1024
    allowedTypes := ["image/jpeg", "image/png", "image/webp"]
    maxFiles := 10 }

/-- A browser `File`: declared name, byte size, declared MIME type and
content bytes.  `read1Ok` models whether `file.slice(0,8).arrayBuffer()`
succeeds, `read2Ok` whether `file.slice(8,12).arrayBuffer()` would. -/
structure File where
  name : String
  size : Nat
  ftype : String
  content : List Nat
  read1Ok : Bool := true
  read2Ok : Bool := true
deriving Repr, DecidableEq

/-- Result record of `validateFile`. -/
structure ValidationResult where
  valid : Bool
  error : Option String
deriving Repr, DecidableEq

/-- The `formatBytes` of `validation.ts` lines 140-148.  The source's
floating-point `toFixed(2)`/`parseFloat` formatting is approximated with
truncated two-decimal fixed point; no theorem depends on this string. -/
def formatBytes (bytes : Nat) : String :=
  if bytes = 0 then "0 Bytes"
  else
    let i := Nat.log 1024 bytes
    let sizes := ["Bytes", "KB", "MB", "GB"]
    let scaled := bytes * 100 / 1024 ^ i
    let whole := scaled / 100
    let frac := scaled % 100
    let fracStr :=
      if frac = 0 then ""
      else if frac % 10 = 0 then "." ++ toString (frac / 10)
      else "." ++ (if frac < 10 then "0" else "") ++ toString frac
    toString whole ++ fracStr ++ " " ++ sizes.getD i "GB"

/-- The `isValidImageFile` of `validation.ts` lines 84-133: magic-byte
check for JPEG (`FF D8 FF`), PNG (`89 50 4E 47 0D 0A 1A 0A`) or WebP
(`RIFF` at offset 0 plus `WEBP` at offset 8); any exception during the
byte reads yields `false`. -/
def isValidImageFile (file : File) : Bool :=
  if !file.read1Ok then false
  else
    let bytes := file.content
    if bytes.get? 0 == some 0xff && bytes.get? 1 == some 0xd8 &&
        bytes.get? 2 == some 0xff then
      true
    else if bytes.get? 0 == some 0x89 && bytes.get? 1 == some 0x50 &&
        bytes.get? 2 == some 0x4e && bytes.get? 3 == some 0x47 &&
        bytes.get? 4 == some 0x0d && bytes.get? 5 == some 0x0a &&
        bytes.get? 6 == some 0x1a && bytes.get? 7 == some 0x0a then
      true
    else if bytes.get? 0 == some 0x52 && bytes.get? 1 == some 0x49 &&
        bytes.get? 2 == some 0x46 && bytes.get? 3 == some 0x46 then
      if !file.read2Ok then false
      else
        let webpBytes := bytes.drop 8
        webpBytes.get? 0 == some 0x57 && webpBytes.get? 1 == some 0x45 &&
          webpBytes.get? 2 == some 0x42 && webpBytes.get? 3 == some 0x50
    else false

/-- The `validateFile` of `validation.ts` lines 20-50: size check, then
declared-type check, then magic-byte check. -/
def validateFile (file : File) (constraints : UploadConstraints) : ValidationResult :=
  if file.size > constraints.maxFileSize then
    { valid := false
      error := some ("File size " ++ formatBytes file.size ++
        " exceeds maximum allowed size of " ++ formatBytes constraints.maxFileSize) }
  else if !(constraints.allowedTypes.contains file.ftype) then
    { valid := false
      error := some ("File type " ++ file.ftype ++ " is not allowed. Allowed types: " ++
        String.intercalate ", " constraints.allowedTypes) }
  else if !isValidImageFile file then
    { valid := false, error := some "File does not appear to be a valid image" }
  else
    { valid := true, error := none }

/-- The `validateFiles` of `validation.ts` lines 58-77: a batch larger
than `maxFiles` marks every entry invalid; otherwise each file is
checked by `validateFile`. -/
def validateFiles (files : List File) (constraints : UploadConstraints) :
    List (File × ValidationResult) :=
  if files.length > constraints.maxFiles then
    files.map (fun f =>
      (f, { valid := false
            error := some ("Too many files selected. Maximum allowed: " ++
              toString constraints.maxFiles) }))
  else
    files.map (fun f => (f, validateFile f constraints))

/-- Characters kept unchanged by `sanitizeFilename`, the class
`[a-zA-Z0-9.-]` of `validation.ts` line 169. -/
def isFilenameSafeChar (c : Char) : Bool :=
  ('a' ≤ c && c ≤ 'z') || ('A' ≤ c && c ≤ 'Z') || ('0' ≤ c && c ≤ '9') ||
    c = '.' || c = '-'

/-- The global regex replacement of runs of two or more underscores by a
single underscore, `validation.ts` line 170. -/
def collapseUnderscores : List Char → List Char
  | [] => []
  | [c] => [c]
  | a :: b :: rest =>
    if a = '_' && b = '_' then collapseUnderscores (b :: rest)
    else a :: collapseUnderscores (b :: rest)

/-- The `sanitizeFilename` of `validation.ts` lines 167-172: replace every
character outside `[a-zA-Z0-9.-]` by an underscore, collapse runs of
underscores, then lowercase. -/
def sanitizeFilename (s : String) : String :=
  String.mk
    (List.map Char.toLower
      (collapseUnderscores
        (s.data.map (fun c => if isFilenameSafeChar c then c else '_'))))

/-- Characters of the class `[a-z0-9.-]` named by the specification's
description of `sanitizeFilename`. -/
def isLowerSafeChar (c : Char) : Bool :=
  ('a' ≤ c && c ≤ 'z') || ('0' ≤ c && c ≤ '9') || c = '.' || c = '-'

/-- Modelled from the claim's words, for comparison with the source
function: lowercase the string, replace every character outside
`[a-z0-9.-]` by an underscore, and collapse runs of underscores. -/
def sanitizeFilenameSpec (s : String) : String :=
  String.mk
    (collapseUnderscores
      ((s.data.map Char.toLower).map (fun c => if isLowerSafeChar c then c else '_')))

/-- Modelled from the claim's words: the magic-byte signatures accepted
by the specification (JPEG, PNG, or WebP with `RIFF` at offset 0 and
`WEBP` at offset 8). -/
def magicBytesSpec (content : List Nat) : Bool :=
  content.take 3 == [0xff, 0xd8, 0xff] ||
  content.take 8 == [0x89, 0x50, 0x4e, 0x47, 0x0d, 0x0a, 0x1a, 0x0a] ||
  (content.take 4 == [0x52, 0x49, 0x46, 0x46] &&
    (content.drop 8).take 4 == [0x57, 0x45, 0x42, 0x50])

end Validation

namespace ImageProcessing

/-- Processing options, `src/types/index.ts`: all fields optional; the
numeric fields hold JavaScript numbers (`Option Int`, `none` = `NaN`). -/
structure ImageProcessingOptions where
  width : Option (Option Int) := none
  height : Option (Option Int) := none
  quality : Option (Option Int) := none
  format : Option String := none
  watermark : Option Bool := none
deriving Repr, DecidableEq

/-- Outcome of a `BRANDING_ASSETS.get` call: it may throw, find no
asset (`null`), or find the asset. -/
inductive GetOutcome where
  | throws
  | missing
  | found
deriving Repr, DecidableEq

/-- Failure-mode environment for the watermark step: one `GetOutcome`
per logo lookup, and a flag telling whether the corresponding
`processor.draw` composite call throws. -/
structure BrandingEnv where
  bbff : GetOutcome
  hmb : GetOutcome
  drawBbffThrows : Bool
  drawHmbThrows : Bool
deriving Repr, DecidableEq

/-- The image-service processor value, abstracted as the list of
operations applied to it so far. -/
abbrev Processor := List String

/-- One logo step of `applyWatermarks`: fetch the asset and, when it is
found, composite it; the returned flag records whether the step threw.
A throwing `draw` leaves the processor unchanged because the source only
reassigns `processor` with the call's result. -/
def drawStep (processor : Processor) (outcome : GetOutcome) (drawThrows : Bool)
    (label : String) : Processor × Bool :=
  match outcome with
  | .throws => (processor, true)
  | .missing => (processor, false)
  | .found => if drawThrows then (processor, true) else (processor ++ [label], false)

/-- The body of `applyWatermarks` (`image-processing.ts` lines 60-103)
without its `catch`: BBFF logo step then HMB logo step, aborting at the
first throw; the flag records whether anything threw. -/
def applyWatermarksRun (processor : Processor) (b : BrandingEnv) : Processor × Bool :=
  let s1 := drawStep processor b.bbff b.drawBbffThrows "draw-bbff"
  if s1.2 then s1
  else drawStep s1.1 b.hmb b.drawHmbThrows "draw-hmb"

/-- The `applyWatermarks` of `image-processing.ts` lines 60-103: its
`catch` swallows every exception and returns the processor state reached
so far, so the function never raises. -/
def applyWatermarks (processor : Processor) (b : BrandingEnv) : Processor :=
  (applyWatermarksRun processor b).1

/-- Failure modes of the image-service calls done directly by
`processImage` (`IMAGES.input`, `.transform`, `.output`). -/
structure ImagesEnv where
  present : Bool
  inputThrows : Bool
  transformThrows : Bool
  outputThrows : Bool
deriving Repr, DecidableEq

/-- The `processImage` of `image-processing.ts` lines 14-52: missing
binding check, input, optional resize transform, optional watermarks
(only when a branding-assets binding exists), output; its `catch`
rethrows every exception of the `try` block as `Image processing failed`. -/
def processImage (options : ImageProcessingOptions) (images : ImagesEnv)
    (branding : Option BrandingEnv) : Except String Processor :=
  if !images.present then .error "Images binding not available"
  else if images.inputThrows then .error "Image processing failed"
  else
    let processor : Processor := ["input"]
    let resizing := truthyOptNum options.width || truthyOptNum options.height
    if resizing && images.transformThrows then .error "Image processing failed"
    else
      let processor := if resizing then processor ++ ["transform"] else processor
      let processor :=
        match branding with
        | some b => if truthyBool options.watermark then applyWatermarks processor b else processor
        | none => processor
      if images.outputThrows then .error "Image processing failed"
      else .ok (processor ++ ["output"])

/-- The `generateThumbnailUrl` of `image-processing.ts` lines 112-118. -/
def generateThumbnailUrl (imageKey : String) (width : Nat := 300) (quality : Nat := 85) :
    String :=
  "/cdn-cgi/image/width=" ++ toString width ++ ",quality=" ++ toString quality ++
    "/api/images/" ++ imageKey

/-- Return type of `generateResponsiveUrls`. -/
structure ResponsiveUrls where
  thumbnail : String
  small : String
  medium : String
  large : String
  original : String
deriving Repr, DecidableEq

/-- The `generateResponsiveUrls` of `image-processing.ts` lines 125-141. -/
def generateResponsiveUrls (imageKey : String) : ResponsiveUrls :=
  let baseUrl := "/api/images/" ++ imageKey
  { thumbnail := "/cdn-cgi/image/width=150,quality=80" ++ baseUrl
    small := "/cdn-cgi/image/width=400,quality=85" ++ baseUrl
    medium := "/cdn-cgi/image/width=800,quality=90" ++ baseUrl
    large := "/cdn-cgi/image/width=1200,quality=95" ++ baseUrl
    original := baseUrl }

/-- Whether the response rendered at quality `q` fits the size target:
`parseInt(contentLength) / 1024 <= targetSizeKB`, where `sizeParsed q`
is the parsed `content-length` of the image rendered at quality `q`
(`none` = `NaN`, which fails every comparison). -/
def fitsTarget (sizeParsed : Nat → Option Int) (targetSizeKB : ℚ) (q : Nat) : Bool :=
  match sizeParsed q with
  | some s => decide ((s : ℚ) / 1024 ≤ targetSizeKB)
  | none => false

/-- The `while` loop of `optimizeForWeb` (`image-processing.ts` lines
196-218), entered with the quality of the last render: stop below 20
or when the render fits or at the floor 20, otherwise lower the quality
by 10 (clamped to 20) and re-render.  Returns the quality of the render
the loop ends on. -/
def optimizeLoop (sizeParsed : Nat → Option Int) (targetSizeKB : ℚ) (q : Nat) : Nat :=
  if q < 20 then q
  else if fitsTarget sizeParsed targetSizeKB q then q
  else if q ≤ 20 then q
  else optimizeLoop sizeParsed targetSizeKB (if q - 10 < 20 then 20 else q - 10)
termination_by q
decreasing_by
  split <;> omega

/-- The `optimizeForWeb` of `image-processing.ts` lines 179-221,
abstracted to the quality of the response it returns: first render at
quality 95, then run the back-off loop. -/
def optimizeForWeb (sizeParsed : Nat → Option Int) (targetSizeKB : ℚ) : Nat :=
  optimizeLoop sizeParsed targetSizeKB 95

/-- The quality sequence 95, 85, ..., 25, 20 the specification says the
back-off loop walks through. -/
def qualityLadder : List Nat := [95, 85, 75, 65, 55, 45, 35, 25, 20]

/-- The `createCacheKey` of `image-processing.ts` lines 229-243: the key
and the six option parts joined by underscores, with no sanitization of
the key. -/
def createCacheKey (imageKey : String) (options : ImageProcessingOptions) : String :=
  String.intercalate "_"
    [imageKey,
     jsNumOrAuto options.width,
     jsNumOrAuto options.height,
     jsNumOrAuto options.quality,
     jsStrOrAuto options.format,
     if truthyBool options.watermark then "wm" else "no-wm"]

/-- The `validateProcessingOptions` of `image-processing.ts` lines
250-273: bounds checks on width, height, quality, then format. -/
def validateProcessingOptions (options : ImageProcessingOptions) :
    Validation.ValidationResult :=
  if (match options.width with
      | some (some n) => n < 1 || n > 4000
      | _ => false) then
    { valid := false, error := some "Width must be between 1 and 4000 pixels" }
  else if (match options.height with
      | some (some n) => n < 1 || n > 4000
      | _ => false) then
    { valid := false, error := some "Height must be between 1 and 4000 pixels" }
  else if (match options.quality with
      | some (some n) => n < 1 || n > 100
      | _ => false) then
    { valid := false, error := some "Quality must be between 1 and 100" }
  else if (match options.format with
      | some s => s != "" && !(["jpeg", "png", "webp"].contains s)
      | none => false) then
    { valid := false, error := some "Format must be jpeg, png, or webp" }
  else
    { valid := true, error := none }

/-- The `getOptimalFormat` of `image-processing.ts` lines 280-289,
keyed on the request's `Accept` header value. -/
def getOptimalFormat (acceptHeader : String) : String :=
  if jsIncludes acceptHeader "image/webp" then "webp" else "jpeg"

end ImageProcessing

namespace ListHandler

/-- The limit computation of `list.ts` line 43:
`Math.min(parseInt(url.searchParams.get('limit') || '50'), 100)`,
returning the JavaScript number passed as the object-store list limit. -/
def listLimit (limitParam : Option String) : Option Int :=
  (jsParseInt
    (match limitParam with
     | some s => if s = "" then "50" else s
     | none => "50")).map (fun n => min n 100)

end ListHandler

namespace UploadHandler

/-- The per-request upload constraints built inline in `upload.ts`
(`MAX_UPLOAD_SIZE` env var, default 10485760). -/
def uploadConstraints (maxUploadSize : Nat) : Validation.UploadConstraints :=
  { maxFileSize := maxUploadSize
    allowedTypes := ["image/jpeg", "image/png", "image/webp"]
    maxFiles := 10 }

/-- Abstraction of the upload handler's HTTP response together with the
storage writes it attempted. -/
structure UploadResult where
  status : Nat
  code : Option String
  message : Option String
  photos : List String
  errors : List (String × String)
  putCalls : List String
deriving Repr, DecidableEq

/-- The core of the upload `onRequestPost` (`upload.ts`), entered after
the CORS, storage-binding, rate-limit and authentication guards pass:
empty-batch check, per-file `validateFile`, whole-batch rejection when
any file is invalid, otherwise one storage write per file with settled
results split into successes and failures.  `putOk i` tells whether the
storage write for file `i` succeeds, `putError i` the failure message
otherwise; `putCalls` records which files a write was attempted for,
and `photos` holds the `filename` metadata (the sanitized original
name) of the successful uploads. -/
def handleUpload (files : List Validation.File) (maxUploadSize : Nat)
    (putOk : Nat → Bool) (putError : Nat → String) : UploadResult :=
  if files.isEmpty then
    { status := 400, code := some "VALIDATION_FAILED", message := some "No files provided"
      photos := [], errors := [], putCalls := [] }
  else
    let results := files.map (fun f => (f, Validation.validateFile f (uploadConstraints maxUploadSize)))
    let invalidFiles := results.filter (fun p => !p.2.valid)
    if !invalidFiles.isEmpty then
      { status := 400, code := some "VALIDATION_FAILED"
        message := some ("Invalid files: " ++ String.intercalate ", "
          (invalidFiles.map (fun p => p.1.name ++ ": " ++ p.2.error.getD "undefined")))
        photos := [], errors := [], putCalls := [] }
    else
      let outcomes := files.enum.map (fun p =>
        if putOk p.1 then Sum.inl (Validation.sanitizeFilename p.2.name)
        else Sum.inr (p.2.name, putError p.1))
      let photos := outcomes.filterMap (fun o =>
        match o with | .inl m => some m | .inr _ => none)
      let errors := outcomes.filterMap (fun o =>
        match o with | .inl _ => none | .inr e => some e)
      { status := if errors.isEmpty then 201 else 206
        code := none, message := none
        photos := photos, errors := errors
        putCalls := files.map (fun f => f.name) }

end UploadHandler

namespace ServeHandler

/-- The event key namespace constant of `functions/api/images/[key].ts`
line 200 (named `EVENT` + underscore + `PREFIX` in the source). -/
def eventKeyBase : String := "25thAnniversary"

/-- Characters kept unchanged by the serving handler's cache-key
sanitization, the class `[\w.-]` of `[key].ts` line 334. -/
def isWordDotDashChar (c : Char) : Bool :=
  ('a' ≤ c && c ≤ 'z') || ('A' ≤ c && c ≤ 'Z') || ('0' ≤ c && c ≤ '9') ||
    c = '_' || c = '.' || c = '-'

/-- The key sanitization of `[key].ts` line 334:
`imageKey.replace(/[^\w.-]/g, '_')`. -/
def cacheKeySanitize (s : String) : String :=
  String.mk (s.data.map (fun c => if isWordDotDashChar c then c else '_'))

/-- The `createCacheKey` of `[key].ts` lines 332-343: like the adapter's,
but the key is sanitized before the six option parts are appended. -/
def createCacheKey (imageKey : String) (options : ImageProcessing.ImageProcessingOptions) :
    String :=
  String.intercalate "_"
    [cacheKeySanitize imageKey,
     jsNumOrAuto options.width,
     jsNumOrAuto options.height,
     jsNumOrAuto options.quality,
     jsStrOrAuto options.format,
     if truthyBool options.watermark then "wm" else "no-wm"]

/-- The request-dependent inputs of the serving `onRequestGet`:
the `key` route parameter and the `w`, `h`, `q`, `watermark` query
parameters (each `none` when absent), plus the `Accept` header value. -/
structure ServeRequest where
  key : Option String
  w : Option String
  h : Option String
  q : Option String
  watermarkParam : Option String
  accept : String
deriving Repr, DecidableEq

/-- The option parsing of `[key].ts` lines 236-249: `w`/`h` are parsed
only when supplied and non-empty, `q` defaults to 90, the format comes
from `Accept` negotiation, and the watermark defaults to true unless
`watermark=false` is passed. -/
def parseProcessingOptions (r : ServeRequest) : ImageProcessing.ImageProcessingOptions :=
  { width := if truthyStr r.w then some (jsParseInt (r.w.getD "")) else none
    height := if truthyStr r.h then some (jsParseInt (r.h.getD "")) else none
    quality := some (if truthyStr r.q then jsParseInt (r.q.getD "") else some 90)
    format := some (ImageProcessing.getOptimalFormat r.accept)
    watermark := some (r.watermarkParam != some "false") }

/-- External calls the serving handler can make, in order. -/
inductive ServeEffect where
  | cacheMatch
  | bucketGet
  | processCall
  | cacheWrite
deriving Repr, DecidableEq

/-- Abstraction of the serving handler's HTTP response together with
the external calls it made. -/
structure ServeResult where
  status : Nat
  code : Option String
  message : Option String
  xCache : Option String
  effects : List ServeEffect
deriving Repr, DecidableEq

/-- The core of the serving `onRequestGet` (`[key].ts` lines 207-324),
entered after the CORS and storage-binding guards pass: key presence
check, key resolution, option parse and validation, cache lookup, store
fetch, processing, cache write.  `cacheHit`, `objectFound` and
`processOk` are the oracle outcomes of the corresponding external calls;
`effects` records which of those calls were made. -/
def serveImage (r : ServeRequest) (cacheHit : Bool) (objectFound : Bool)
    (processOk : Bool) : ServeResult :=
  if !truthyStr r.key then
    { status := 404, code := some "FILE_NOT_FOUND"
      message := some "Requested resource not found", xCache := none, effects := [] }
  else
    let options := parseProcessingOptions r
    let validation := ImageProcessing.validateProcessingOptions options
    if !validation.valid then
      { status := 400, code := some "VALIDATION_FAILED", message := validation.error
        xCache := none, effects := [] }
    else if cacheHit then
      { status := 200, code := none, message := none, xCache := some "HIT"
        effects := [.cacheMatch] }
    else if !objectFound then
      { status := 404, code := some "FILE_NOT_FOUND"
        message := some ("File " ++ r.key.getD "" ++ " not found"), xCache := none
        effects := [.cacheMatch, .bucketGet] }
    else if !processOk then
      { status := 500, code := some "PROCESSING_ERROR", message := some "Image processing failed"
        xCache := none, effects := [.cacheMatch, .bucketGet, .processCall] }
    else
      { status := 200, code := none, message := none, xCache := some "MISS"
        effects := [.cacheMatch, .bucketGet, .processCall, .cacheWrite] }

end ServeHandler

section CharLemmas

/-- Char comparison is comparison of code points. -/
theorem char_le_iff (a b : Char) : a ≤ b ↔ a.toNat ≤ b.toNat := by
  rw [Char.le_def, UInt32.le_def, BitVec.le_def]
  exact Iff.rfl

/-- Char equality is equality of code points. -/
theorem char_eq_iff (a b : Char) : a = b ↔ a.toNat = b.toNat := by
  constructor
  · intro h; rw [h]
  · intro h
    apply Char.ext
    apply UInt32.eq_of_toBitVec_eq
    apply BitVec.eq_of_toNat_eq
    exact h

/-- Packing a valid code point and unpacking it is the identity. -/
theorem charToNat_ofNat_valid {n : Nat} (h : n.isValidChar) :
    (Char.ofNat n).toNat = n := by
  simp [Char.ofNat, h, Char.ofNatAux, Char.toNat, UInt32.toNat, BitVec.toNat_ofNatLt]

/-- On an upper-case ASCII letter, `Char.toLower` adds 32 to the code point. -/
theorem toLower_toNat_of_upper {c : Char} (h1 : 65 ≤ c.toNat) (h2 : c.toNat ≤ 90) :
    c.toLower.toNat = c.toNat + 32 := by
  unfold Char.toLower
  rw [if_pos ⟨h1, h2⟩]
  exact charToNat_ofNat_valid (Or.inl (by omega))

/-- Outside the upper-case ASCII range, `Char.toLower` is the identity. -/
theorem toLower_eq_self_of_not_upper {c : Char} (h : ¬(65 ≤ c.toNat ∧ c.toNat ≤ 90)) :
    c.toLower = c := by
  unfold Char.toLower
  rw [if_neg h]

/-- Replacing unsafe characters commutes with lowercasing: replacing a
character outside `[a-zA-Z0-9.-]` and then lowercasing agrees with
lowercasing and then replacing characters outside `[a-z0-9.-]`. -/
theorem replace_toLower_comm (c : Char) :
    Char.toLower (if Validation.isFilenameSafeChar c then c else '_') =
      (if Validation.isLowerSafeChar c.toLower then c.toLower else '_') := by
  have ha : ('a' : Char).toNat = 97 := by decide
  have hz : ('z' : Char).toNat = 122 := by decide
  have hA : ('A' : Char).toNat = 65 := by decide
  have hZ : ('Z' : Char).toNat = 90 := by decide
  have h0 : ('0' : Char).toNat = 48 := by decide
  have h9 : ('9' : Char).toNat = 57 := by decide
  have hdot : ('.' : Char).toNat = 46 := by decide
  have hdash : ('-' : Char).toNat = 45 := by decide
  by_cases hu : 65 ≤ c.toNat ∧ c.toNat ≤ 90
  · have hlow := toLower_toNat_of_upper hu.1 hu.2
    have hsafe : Validation.isFilenameSafeChar c = true := by
      simp only [Validation.isFilenameSafeChar, Bool.or_eq_true, Bool.and_eq_true,
        decide_eq_true_eq, char_le_iff, char_eq_iff, ha, hz, hA, hZ, h0, h9, hdot, hdash]
      omega
    have hls : Validation.isLowerSafeChar c.toLower = true := by
      simp only [Validation.isLowerSafeChar, Bool.or_eq_true, Bool.and_eq_true,
        decide_eq_true_eq, char_le_iff, char_eq_iff, ha, hz, hA, hZ, h0, h9, hdot, hdash,
        hlow]
      omega
    rw [hsafe, hls]
    simp
  · have hlow : c.toLower = c := toLower_eq_self_of_not_upper hu
    rw [hlow]
    by_cases hs : Validation.isFilenameSafeChar c = true
    · have hls : Validation.isLowerSafeChar c = true := by
        simp only [Validation.isFilenameSafeChar, Bool.or_eq_true, Bool.and_eq_true,
          decide_eq_true_eq, char_le_iff, char_eq_iff, ha, hz, hA, hZ, h0, h9, hdot,
          hdash] at hs
        simp only [Validation.isLowerSafeChar, Bool.or_eq_true, Bool.and_eq_true,
          decide_eq_true_eq, char_le_iff, char_eq_iff, ha, hz, h0, h9, hdot, hdash]
        omega
      rw [hs, hls]
      simp [hlow]
    · have hs' : Validation.isFilenameSafeChar c = false := by simpa using hs
      have hls : Validation.isLowerSafeChar c = false := by
        simp only [Validation.isFilenameSafeChar, Bool.or_eq_false_iff,
          Bool.and_eq_false_iff, decide_eq_false_iff_not, char_le_iff, char_eq_iff,
          ha, hz, hA, hZ, h0, h9, hdot, hdash, not_le] at hs'
        simp only [Validation.isLowerSafeChar, Bool.or_eq_false_iff,
          Bool.and_eq_false_iff, decide_eq_false_iff_not, char_le_iff, char_eq_iff,
          ha, hz, h0, h9, hdot, hdash, not_le]
        omega
      rw [hs', hls]
      simp

/-- No character other than the underscore lowercases to an underscore. -/
theorem toLower_eq_underscore_iff (c : Char) : c.toLower = '_' ↔ c = '_' := by
  by_cases hu : 65 ≤ c.toNat ∧ c.toNat ≤ 90
  · have hlow := toLower_toNat_of_upper hu.1 hu.2
    have h95 : ('_' : Char).toNat = 95 := by decide
    constructor
    · intro h
      rw [char_eq_iff, hlow, h95] at h
      omega
    · intro h
      rw [char_eq_iff, h95] at h
      omega
  · rw [toLower_eq_self_of_not_upper hu]

/-- Collapsing underscore runs commutes with lowercasing. -/
theorem collapse_map_toLower (l : List Char) :
    List.map Char.toLower (Validation.collapseUnderscores l) =
      Validation.collapseUnderscores (l.map Char.toLower) := by
  induction l with
  | nil => rfl
  | cons a t ih =>
    cases t with
    | nil => simp [Validation.collapseUnderscores]
    | cons b r =>
      simp only [Validation.collapseUnderscores, List.map]
      by_cases hab : a = '_' ∧ b = '_'
      · obtain ⟨rfl, rfl⟩ := hab
        simpa [Validation.collapseUnderscores] using ih
      · have hb : (a = '_' && b = '_') = false := by
          rcases not_and_or.mp hab with h | h <;> simp [h]
        have hb2 : (a.toLower = '_' && b.toLower = '_') = false := by
          rcases not_and_or.mp hab with h | h
          · simp [(toLower_eq_underscore_iff a).not.mpr h]
          · simp [(toLower_eq_underscore_iff b).not.mpr h]
        rw [hb, hb2]
        simpa [Validation.collapseUnderscores] using ih

/-- A nonempty all-underscore list collapses to a single underscore. -/
theorem collapse_all_underscore (l : List Char) (h1 : l ≠ []) (h2 : ∀ c ∈ l, c = '_') :
    Validation.collapseUnderscores l = ['_'] := by
  induction l with
  | nil => exact absurd rfl h1
  | cons a t ih =>
    cases t with
    | nil =>
      have := h2 a (by simp)
      simp [Validation.collapseUnderscores, this]
    | cons b r =>
      have haa := h2 a (by simp)
      have hbb := h2 b (by simp)
      subst haa
      subst hbb
      simp only [Validation.collapseUnderscores]
      rw [if_pos (by simp)]
      exact ih (by simp) (fun c hc => h2 c (List.mem_cons_of_mem _ hc))

end CharLemmas

/-- Claim C7: `sanitizeFilename` returns the lowercased string in which
every character outside `[a-z0-9.-]` has become an underscore and every
run of two or more underscores has collapsed to one (stated as the
equality of the source function with the function built from the claim's
words); in particular `sanitizeFilename "My File!!.JPG" = "my_file_.jpg"`,
`sanitizeFilename "" = ""`, and a nonempty input consisting only of
characters outside the safe class collapses to a single underscore. -/
theorem claim_C7_sanitizeFilename :
    (∀ s, Validation.sanitizeFilename s = Validation.sanitizeFilenameSpec s) ∧
    Validation.sanitizeFilename "My File!!.JPG" = "my_file_.jpg" ∧
    Validation.sanitizeFilename "" = "" ∧
    (∀ s : String, s ≠ "" → (∀ c ∈ s.data, Validation.isFilenameSafeChar c = false) →
      Validation.sanitizeFilename s = "_") := by
  refine ⟨?_, by decide, by decide, ?_⟩
  · intro s
    unfold Validation.sanitizeFilename Validation.sanitizeFilenameSpec
    congr 1
    rw [collapse_map_toLower, List.map_map, List.map_map]
    apply congrArg
    apply List.map_congr_left
    intro c _
    exact replace_toLower_comm c
  · intro s hne hall
    unfold Validation.sanitizeFilename
    rw [collapse_all_underscore]
    · decide
    · intro h
      apply hne
      cases s with
      | mk d =>
        simp only [List.map_eq_nil_iff] at h
        rw [h]
    · intro c hc
      rw [List.mem_map] at hc
      obtain ⟨d, hd, rfl⟩ := hc
      rw [hall d hd]
      simp

/-- Witness for claim C7 at a concrete all-special-character input. -/
theorem claim_C7_witness : Validation.sanitizeFilename "!!!" = "_" :=
  claim_C7_sanitizeFilename.2.2.2 "!!!" (by decide) (by decide)

/-- Indexed lookup of the first three elements written as a prefix. -/
theorem getChain3 (l : List Nat) (a b c : Nat) :
    (l.get? 0 == some a && (l.get? 1 == some b) && (l.get? 2 == some c)) =
      (l.take 3 == [a, b, c]) := by
  rcases l with _ | ⟨x, _ | ⟨y, _ | ⟨z, r⟩⟩⟩ <;> simp [List.take, Bool.and_assoc]

/-- Indexed lookup of the first four elements written as a prefix. -/
theorem getChain4 (l : List Nat) (a b c d : Nat) :
    (l.get? 0 == some a && (l.get? 1 == some b) && (l.get? 2 == some c) &&
      (l.get? 3 == some d)) = (l.take 4 == [a, b, c, d]) := by
  rcases l with _ | ⟨x, _ | ⟨y, _ | ⟨z, _ | ⟨w, r⟩⟩⟩⟩ <;> simp [List.take, Bool.and_assoc]

/-- Indexed lookup of the first eight elements written as a prefix. -/
theorem getChain8 (l : List Nat) (a b c d e f g h : Nat) :
    (l.get? 0 == some a && (l.get? 1 == some b) && (l.get? 2 == some c) &&
      (l.get? 3 == some d) && (l.get? 4 == some e) && (l.get? 5 == some f) &&
      (l.get? 6 == some g) && (l.get? 7 == some h)) =
      (l.take 8 == [a, b, c, d, e, f, g, h]) := by
  rcases l with _ | ⟨x1, _ | ⟨x2, _ | ⟨x3, _ | ⟨x4, _ | ⟨x5, _ | ⟨x6, _ | ⟨x7, _ | ⟨x8, r⟩⟩⟩⟩⟩⟩⟩⟩ <;>
    simp [List.take, Bool.and_assoc]

/-- The magic-byte check equals a prefix test: read succeeds and the
content starts with the JPEG, PNG or RIFF/WEBP signature (the WebP case
also needing the second read to succeed). -/
theorem isValidImageFile_eq_spec (f : Validation.File) :
    Validation.isValidImageFile f =
      (f.read1Ok &&
        (f.content.take 3 == [0xff, 0xd8, 0xff] ||
         f.content.take 8 == [0x89, 0x50, 0x4e, 0x47, 0x0d, 0x0a, 0x1a, 0x0a] ||
         (f.content.take 4 == [0x52, 0x49, 0x46, 0x46] &&
           (f.read2Ok && (f.content.drop 8).take 4 == [0x57, 0x45, 0x42, 0x50])))) := by
  unfold Validation.isValidImageFile
  cases h1 : f.read1Ok with
  | false => simp
  | true =>
    simp only [Bool.not_true, Bool.false_eq_true, if_false, Bool.true_and]
    rw [getChain3, getChain8, getChain4, getChain4]
    cases hj : (f.content.take 3 == [0xff, 0xd8, 0xff]) with
    | true => simp [hj]
    | false =>
      cases hp : (f.content.take 8 == [0x89, 0x50, 0x4e, 0x47, 0x0d, 0x0a, 0x1a, 0x0a]) with
      | true => simp [hj, hp]
      | false =>
        cases hr : (f.content.take 4 == [0x52, 0x49, 0x46, 0x46]) with
        | true =>
          cases h2 : f.read2Ok with
          | false => simp [hj, hp, hr, h2]
          | true => simp [hj, hp, hr, h2]
        | false => simp [hj, hp, hr]

/-- Claim C6: for a file of allowed declared type and size, `validateFile`
passes exactly when the content starts with the JPEG (`FF D8 FF`), PNG
(`89 50 4E 47 0D 0A 1A 0A`) or WebP (`RIFF` at 0 plus `WEBP` at 8)
signature and the byte reads raise no error; in every other case it is
invalid with the one generic message, and when both reads succeed the
verdict is exactly the `magicBytesSpec` signature test. -/
theorem claim_C6_magicBytes (f : Validation.File) (constraints : Validation.UploadConstraints)
    (hsize : f.size ≤ constraints.maxFileSize)
    (htype : f.ftype ∈ constraints.allowedTypes) :
    Validation.validateFile f constraints =
      (if f.read1Ok &&
          (f.content.take 3 == [0xff, 0xd8, 0xff] ||
           f.content.take 8 == [0x89, 0x50, 0x4e, 0x47, 0x0d, 0x0a, 0x1a, 0x0a] ||
           (f.content.take 4 == [0x52, 0x49, 0x46, 0x46] &&
             (f.read2Ok && (f.content.drop 8).take 4 == [0x57, 0x45, 0x42, 0x50])))
        then { valid := true, error := none }
        else { valid := false, error := some "File does not appear to be a valid image" }) ∧
      (f.read1Ok = true → f.read2Ok = true →
        (Validation.validateFile f constraints).valid = Validation.magicBytesSpec f.content) := by
  have hcont : constraints.allowedTypes.contains f.ftype = true := by
    simpa [List.contains, List.elem_iff] using htype
  have main : Validation.validateFile f constraints =
      (if f.read1Ok &&
          (f.content.take 3 == [0xff, 0xd8, 0xff] ||
           f.content.take 8 == [0x89, 0x50, 0x4e, 0x47, 0x0d, 0x0a, 0x1a, 0x0a] ||
           (f.content.take 4 == [0x52, 0x49, 0x46, 0x46] &&
             (f.read2Ok && (f.content.drop 8).take 4 == [0x57, 0x45, 0x42, 0x50])))
        then { valid := true, error := none }
        else { valid := false, error := some "File does not appear to be a valid image" }) := by
    unfold Validation.validateFile
    rw [if_neg (by omega)]
    rw [hcont]
    rw [isValidImageFile_eq_spec]
    cases hb : (f.read1Ok &&
          (f.content.take 3 == [0xff, 0xd8, 0xff] ||
           f.content.take 8 == [0x89, 0x50, 0x4e, 0x47, 0x0d, 0x0a, 0x1a, 0x0a] ||
           (f.content.take 4 == [0x52, 0x49, 0x46, 0x46] &&
             (f.read2Ok && (f.content.drop 8).take 4 == [0x57, 0x45, 0x42, 0x50])))) <;>
      simp
  refine ⟨main, ?_⟩
  intro h1 h2
  rw [main]
  simp only [h1, h2, Bool.true_and]
  unfold Validation.magicBytesSpec
  cases hb : (f.content.take 3 == [0xff, 0xd8, 0xff] ||
      f.content.take 8 == [0x89, 0x50, 0x4e, 0x47, 0x0d, 0x0a, 0x1a, 0x0a] ||
      (f.content.take 4 == [0x52, 0x49, 0x46, 0x46] &&
        (f.content.drop 8).take 4 == [0x57, 0x45, 0x42, 0x50])) <;>
    simp_all [Bool.or_assoc, Bool.and_assoc]

/-- Witness for claim C6 at a three-byte JPEG file. -/
theorem claim_C6_witness :
    Validation.validateFile
      { name := "a.jpg", size := 100, ftype := "image/jpeg", content := [0xff, 0xd8, 0xff] }
      Validation.DEFAULT_CONSTRAINTS = { valid := true, error := none } := by
  rw [(claim_C6_magicBytes
    { name := "a.jpg", size := 100, ftype := "image/jpeg", content := [0xff, 0xd8, 0xff] }
    Validation.DEFAULT_CONSTRAINTS (by decide) (by decide)).1]
  decide

/-- Claim C1 counterexample: on the resolved storage key
`25thAnniversary/photo.jpg` (and default options) the serving handler's
cache key differs from the adapter's, because only the handler replaces
the slash by an underscore. -/
theorem claim_C1_counterexample :
    ServeHandler.createCacheKey "25thAnniversary/photo.jpg" {} ≠
      ImageProcessing.createCacheKey "25thAnniversary/photo.jpg" {} := by
  decide

/-- Claim C1 (amended): the serving handler's cache key equals the
adapter's cache key taken at the sanitized key, so the two agree exactly
on keys fixed by the sanitization — not on every resolved key. -/
theorem claim_C1_cacheKey (key : String) (options : ImageProcessing.ImageProcessingOptions) :
    ServeHandler.createCacheKey key options =
      ImageProcessing.createCacheKey (ServeHandler.cacheKeySanitize key) options := rfl

/-- Claim C9: the `medium` responsive URL coincides with the thumbnail
URL pattern at width 800 and quality 90. -/
theorem claim_C9_mediumUrl (key : String) :
    (ImageProcessing.generateResponsiveUrls key).medium =
      ImageProcessing.generateThumbnailUrl key 800 90 := by
  show ("/cdn-cgi/image/width=800,quality=90" ++ ("/api/images/" ++ key)) = _
  rw [← String.append_assoc]
  rfl

/-- Claim C8: the object-store list limit is 50 when the `limit`
parameter is absent, and the value passed to storage never exceeds 100
for any supplied parameter. -/
theorem claim_C8_listLimit :
    ListHandler.listLimit none = some 50 ∧
    (∀ v n, ListHandler.listLimit (some v) = some n → n ≤ 100) := by
  constructor
  · rfl
  · intro v n h
    unfold ListHandler.listLimit at h
    cases hp : jsParseInt (if v = "" then "50" else v) with
    | none => rw [hp] at h; simp at h
    | some m =>
      rw [hp] at h
      simp at h
      omega

/-- Witness for claim C8 at the supplied parameter value 250. -/
theorem claim_C8_witness :
    ListHandler.listLimit (some "250") = some 100 ∧ (100 : Int) ≤ 100 :=
  ⟨by decide, claim_C8_listLimit.2 "250" 100 (by decide)⟩

/-- Claim C4: when the image-service calls done directly by
`processImage` succeed, the result is `ok` for every branding
environment — a throwing logo fetch, a missing asset or a throwing
composite never makes `processImage` raise; the final output is built
from the (possibly unwatermarked or partially-watermarked) processor
state that `applyWatermarks` reached. -/
theorem claim_C4_watermarkNeverRaises (options : ImageProcessing.ImageProcessingOptions)
    (images : ImageProcessing.ImagesEnv) (b : ImageProcessing.BrandingEnv)
    (hpres : images.present = true) (hin : images.inputThrows = false)
    (htr : images.transformThrows = false) (hout : images.outputThrows = false) :
    ImageProcessing.processImage options images (some b) =
      .ok ((if truthyBool options.watermark
            then ImageProcessing.applyWatermarks
              (if truthyOptNum options.width || truthyOptNum options.height
               then ["input", "transform"] else ["input"]) b
            else (if truthyOptNum options.width || truthyOptNum options.height
               then ["input", "transform"] else ["input"])) ++ ["output"]) := by
  unfold ImageProcessing.processImage
  simp only [hpres, hin, htr, hout, Bool.not_true, Bool.false_eq_true, if_false,
    Bool.and_false, Bool.not_false]
  cases hr : (truthyOptNum options.width || truthyOptNum options.height) <;>
    cases hw : truthyBool options.watermark <;> simp

/-- Witness for claim C4: watermarking requested, the first logo fetch
throws and the second composite would throw, yet the result is `ok`. -/
theorem claim_C4_witness :
    ImageProcessing.processImage
      { width := some (some 100), watermark := some true }
      { present := true, inputThrows := false, transformThrows := false, outputThrows := false }
      (some { bbff := .throws, hmb := .found, drawBbffThrows := false, drawHmbThrows := true }) =
      .ok ["input", "transform", "output"] := by
  rw [claim_C4_watermarkNeverRaises _ _ _ rfl rfl rfl rfl]
  rfl

/-- Loop exit when the current render fits the target. -/
theorem optimizeLoop_stop_fits (sizeParsed : Nat → Option Int) (t : ℚ) (q : Nat)
    (hq : 20 ≤ q) (hf : ImageProcessing.fitsTarget sizeParsed t q = true) :
    ImageProcessing.optimizeLoop sizeParsed t q = q := by
  rw [ImageProcessing.optimizeLoop, if_neg (by omega), hf]
  simp

/-- Loop exit at the quality floor 20 even when still oversized. -/
theorem optimizeLoop_stop_20 (sizeParsed : Nat → Option Int) (t : ℚ)
    (hf : ImageProcessing.fitsTarget sizeParsed t 20 = false) :
    ImageProcessing.optimizeLoop sizeParsed t 20 = 20 := by
  rw [ImageProcessing.optimizeLoop, if_neg (by omega), hf]
  simp

/-- Loop step: above the floor with an oversized render, lower the
quality by 10 (clamped to 20) and continue. -/
theorem optimizeLoop_step (sizeParsed : Nat → Option Int) (t : ℚ) (q : Nat)
    (hq : 20 < q) (hf : ImageProcessing.fitsTarget sizeParsed t q = false) :
    ImageProcessing.optimizeLoop sizeParsed t q =
      ImageProcessing.optimizeLoop sizeParsed t (if q - 10 < 20 then 20 else q - 10) := by
  rw [ImageProcessing.optimizeLoop, if_neg (by omega), hf]
  simp [Nat.not_le.mpr hq]

/-- Claim C5: `optimizeForWeb` terminates and returns the render at the
first quality of the descending ladder 95, 85, ..., 25, 20 that fits the
target size, or the floor-quality render (never an error) when none
fits. -/
theorem claim_C5_optimizeForWeb (sizeParsed : Nat → Option Int) (t : ℚ) :
    ImageProcessing.optimizeForWeb sizeParsed t =
      ((ImageProcessing.qualityLadder.find?
        (ImageProcessing.fitsTarget sizeParsed t)).getD 20) := by
  unfold ImageProcessing.optimizeForWeb ImageProcessing.qualityLadder
  cases h95 : ImageProcessing.fitsTarget sizeParsed t 95 with
  | true => rw [optimizeLoop_stop_fits _ _ _ (by omega) h95]; simp [List.find?, h95]
  | false =>
  rw [optimizeLoop_step _ _ _ (by omega) h95]
  norm_num
  cases h85 : ImageProcessing.fitsTarget sizeParsed t 85 with
  | true => rw [optimizeLoop_stop_fits _ _ _ (by omega) h85]; simp [List.find?, h95, h85]
  | false =>
  rw [optimizeLoop_step _ _ _ (by omega) h85]
  norm_num
  cases h75 : ImageProcessing.fitsTarget sizeParsed t 75 with
  | true => rw [optimizeLoop_stop_fits _ _ _ (by omega) h75]; simp [List.find?, h95, h85, h75]
  | false =>
  rw [optimizeLoop_step _ _ _ (by omega) h75]
  norm_num
  cases h65 : ImageProcessing.fitsTarget sizeParsed t 65 with
  | true =>
    rw [optimizeLoop_stop_fits _ _ _ (by omega) h65]
    simp [List.find?, h95, h85, h75, h65]
  | false =>
  rw [optimizeLoop_step _ _ _ (by omega) h65]
  norm_num
  cases h55 : ImageProcessing.fitsTarget sizeParsed t 55 with
  | true =>
    rw [optimizeLoop_stop_fits _ _ _ (by omega) h55]
    simp [List.find?, h95, h85, h75, h65, h55]
  | false =>
  rw [optimizeLoop_step _ _ _ (by omega) h55]
  norm_num
  cases h45 : ImageProcessing.fitsTarget sizeParsed t 45 with
  | true =>
    rw [optimizeLoop_stop_fits _ _ _ (by omega) h45]
    simp [List.find?, h95, h85, h75, h65, h55, h45]
  | false =>
  rw [optimizeLoop_step _ _ _ (by omega) h45]
  norm_num
  cases h35 : ImageProcessing.fitsTarget sizeParsed t 35 with
  | true =>
    rw [optimizeLoop_stop_fits _ _ _ (by omega) h35]
    simp [List.find?, h95, h85, h75, h65, h55, h45, h35]
  | false =>
  rw [optimizeLoop_step _ _ _ (by omega) h35]
  norm_num
  cases h25 : ImageProcessing.fitsTarget sizeParsed t 25 with
  | true =>
    rw [optimizeLoop_stop_fits _ _ _ (by omega) h25]
    simp [List.find?, h95, h85, h75, h65, h55, h45, h35, h25]
  | false =>
  rw [optimizeLoop_step _ _ _ (by omega) h25]
  norm_num
  cases h20 : ImageProcessing.fitsTarget sizeParsed t 20 with
  | true =>
    rw [optimizeLoop_stop_fits _ _ _ (by omega) h20]
    simp [List.find?, h95, h85, h75, h65, h55, h45, h35, h25, h20]
  | false =>
    rw [optimizeLoop_stop_20 _ _ h20]
    simp [List.find?, h95, h85, h75, h65, h55, h45, h35, h25, h20]

/-- Option validation either accepts or rejects with one of the four
bound-describing messages. -/
theorem validateProcessingOptions_error_cases (options : ImageProcessing.ImageProcessingOptions) :
    ImageProcessing.validateProcessingOptions options =
      { valid := true, error := none } ∨
    ((ImageProcessing.validateProcessingOptions options).valid = false ∧
      (ImageProcessing.validateProcessingOptions options).error ∈
        [some "Width must be between 1 and 4000 pixels",
         some "Height must be between 1 and 4000 pixels",
         some "Quality must be between 1 and 100",
         some "Format must be jpeg, png, or webp"]) := by
  unfold ImageProcessing.validateProcessingOptions
  split
  · right; simp
  · split
    · right; simp
    · split
      · right; simp
      · split
        · right; simp
        · left; rfl

/-- Any width, height, quality or format outside its bound makes option
validation reject. -/
theorem validateProcessingOptions_invalid_of_bad
    (options : ImageProcessing.ImageProcessingOptions)
    (hbad : (∃ n : Int, options.width = some (some n) ∧ (n < 1 ∨ n > 4000)) ∨
            (∃ n : Int, options.height = some (some n) ∧ (n < 1 ∨ n > 4000)) ∨
            (∃ n : Int, options.quality = some (some n) ∧ (n < 1 ∨ n > 100)) ∨
            (∃ s : String, options.format = some s ∧ s ≠ "" ∧
              s ∉ (["jpeg", "png", "webp"] : List String))) :
    (ImageProcessing.validateProcessingOptions options).valid = false := by
  unfold ImageProcessing.validateProcessingOptions
  rcases hbad with ⟨n, hw, hn⟩ | ⟨n, hh, hn⟩ | ⟨n, hq, hn⟩ | ⟨s, hf, hs1, hs2⟩
  · simp only [hw]
    rw [if_pos (by simp only [Bool.or_eq_true, decide_eq_true_eq]; exact hn)]
  · split
    · rfl
    · simp only [hh]
      rw [if_pos (by simp only [Bool.or_eq_true, decide_eq_true_eq]; exact hn)]
  · split
    · rfl
    · split
      · rfl
      · simp only [hq]
        rw [if_pos (by simp only [Bool.or_eq_true, decide_eq_true_eq]; exact hn)]
  · split
    · rfl
    · split
      · rfl
      · split
        · rfl
        · simp only [hf]
          rw [if_pos (by
            simp only [Bool.and_eq_true, bne_iff_ne, ne_eq, Bool.not_eq_true']
            refine ⟨hs1, ?_⟩
            simpa [List.contains, List.elem_iff] using hs2)]

/-- Claim C3: a serving request whose parsed options hold a width,
height, quality or format outside its bound is answered with
`400 VALIDATION_FAILED` carrying the bound-describing message of
`validateProcessingOptions`, and no external call (cache, object store
or image processing) is made. -/
theorem claim_C3_validationFailFast (r : ServeHandler.ServeRequest) (cacheHit objectFound processOk : Bool)
    (hkey : truthyStr r.key = true)
    (hbad : (∃ n : Int, (ServeHandler.parseProcessingOptions r).width = some (some n) ∧
              (n < 1 ∨ n > 4000)) ∨
            (∃ n : Int, (ServeHandler.parseProcessingOptions r).height = some (some n) ∧
              (n < 1 ∨ n > 4000)) ∨
            (∃ n : Int, (ServeHandler.parseProcessingOptions r).quality = some (some n) ∧
              (n < 1 ∨ n > 100)) ∨
            (∃ s : String, (ServeHandler.parseProcessingOptions r).format = some s ∧ s ≠ "" ∧
              s ∉ (["jpeg", "png", "webp"] : List String))) :
    (ServeHandler.serveImage r cacheHit objectFound processOk).status = 400 ∧
    (ServeHandler.serveImage r cacheHit objectFound processOk).code =
      some "VALIDATION_FAILED" ∧
    (ServeHandler.serveImage r cacheHit objectFound processOk).effects = [] ∧
    (ServeHandler.serveImage r cacheHit objectFound processOk).message =
      (ImageProcessing.validateProcessingOptions (ServeHandler.parseProcessingOptions r)).error ∧
    (ServeHandler.serveImage r cacheHit objectFound processOk).message ∈
      [some "Width must be between 1 and 4000 pixels",
       some "Height must be between 1 and 4000 pixels",
       some "Quality must be between 1 and 100",
       some "Format must be jpeg, png, or webp"] := by
  have hv := validateProcessingOptions_invalid_of_bad _ hbad
  have hserve : ServeHandler.serveImage r cacheHit objectFound processOk =
      { status := 400, code := some "VALIDATION_FAILED"
        message := (ImageProcessing.validateProcessingOptions
          (ServeHandler.parseProcessingOptions r)).error
        xCache := none, effects := [] } := by
    unfold ServeHandler.serveImage
    rw [hkey]
    simp only [Bool.not_true, Bool.false_eq_true, if_false]
    rw [hv]
    simp
  rcases validateProcessingOptions_error_cases (ServeHandler.parseProcessingOptions r) with
    heq | ⟨_, hmem⟩
  · rw [heq] at hv
    simp at hv
  · rw [hserve]
    exact ⟨rfl, rfl, rfl, rfl, hmem⟩

/-- Witness for claim C3 at a request with `w=5000`. -/
theorem claim_C3_witness :
    (ServeHandler.serveImage
      { key := some "photo.jpg", w := some "5000", h := none, q := none,
        watermarkParam := none, accept := "image/webp" } true true true).status = 400 ∧
    (ServeHandler.serveImage
      { key := some "photo.jpg", w := some "5000", h := none, q := none,
        watermarkParam := none, accept := "image/webp" } true true true).code =
      some "VALIDATION_FAILED" ∧
    (ServeHandler.serveImage
      { key := some "photo.jpg", w := some "5000", h := none, q := none,
        watermarkParam := none, accept := "image/webp" } true true true).effects = [] := by
  have h := claim_C3_validationFailFast
    { key := some "photo.jpg", w := some "5000", h := none, q := none,
      watermarkParam := none, accept := "image/webp" } true true true
    (by decide) (Or.inl ⟨5000, by decide, Or.inr (by norm_num)⟩)
  exact ⟨h.1, h.2.1, h.2.2.1⟩

/-- Claim C2: a batch with any invalid file is answered with
`400 VALIDATION_FAILED`, a message listing each failing filename with
its reason, and no storage write; a nonempty all-valid batch is answered
201 when every storage write succeeds and 206 when any write fails, with
each failed file reported as its filename paired with the error. -/
theorem claim_C2_uploadBatch (files : List Validation.File) (maxUploadSize : Nat)
    (putOk : Nat → Bool) (putError : Nat → String) :
    ((∃ f ∈ files,
        (Validation.validateFile f (UploadHandler.uploadConstraints maxUploadSize)).valid = false) →
      (UploadHandler.handleUpload files maxUploadSize putOk putError).status = 400 ∧
      (UploadHandler.handleUpload files maxUploadSize putOk putError).code =
        some "VALIDATION_FAILED" ∧
      (UploadHandler.handleUpload files maxUploadSize putOk putError).putCalls = [] ∧
      (UploadHandler.handleUpload files maxUploadSize putOk putError).message =
        some ("Invalid files: " ++ String.intercalate ", "
          ((files.filter (fun f =>
              !(Validation.validateFile f (UploadHandler.uploadConstraints maxUploadSize)).valid)).map
            (fun f => f.name ++ ": " ++
              (Validation.validateFile f
                (UploadHandler.uploadConstraints maxUploadSize)).error.getD "undefined")))) ∧
    (files ≠ [] →
      (∀ f ∈ files,
        (Validation.validateFile f (UploadHandler.uploadConstraints maxUploadSize)).valid = true) →
      ((∀ i, i < files.length → putOk i = true) →
        (UploadHandler.handleUpload files maxUploadSize putOk putError).status = 201) ∧
      ((∃ i, i < files.length ∧ putOk i = false) →
        (UploadHandler.handleUpload files maxUploadSize putOk putError).status = 206) ∧
      (UploadHandler.handleUpload files maxUploadSize putOk putError).errors =
        files.enum.filterMap (fun p =>
          if putOk p.1 then none else some (p.2.name, putError p.1))) := by
  constructor
  · rintro ⟨f0, hmem, hbad⟩
    have hne : files.isEmpty = false := by
      cases files with
      | nil => simp at hmem
      | cons a t => rfl
    have hinv : ((files.map (fun f =>
        (f, Validation.validateFile f (UploadHandler.uploadConstraints maxUploadSize)))).filter
          (fun p => !p.2.valid)).isEmpty = false := by
      rw [List.isEmpty_eq_false_iff_exists_mem]
      refine ⟨(f0, Validation.validateFile f0 (UploadHandler.uploadConstraints maxUploadSize)), ?_⟩
      rw [List.mem_filter]
      exact ⟨List.mem_map_of_mem _ hmem, by simp [hbad]⟩
    unfold UploadHandler.handleUpload
    simp only [hne, Bool.false_eq_true, if_false, hinv, Bool.not_false, if_true]
    refine ⟨trivial, trivial, trivial, ?_⟩
    rw [List.filter_map, List.map_map]
    rfl
  · intro hne hvalid
    have hie : files.isEmpty = false := by
      cases files with
      | nil => exact absurd rfl hne
      | cons a t => rfl
    have hinv : ((files.map (fun f =>
        (f, Validation.validateFile f (UploadHandler.uploadConstraints maxUploadSize)))).filter
          (fun p => !p.2.valid)).isEmpty = true := by
      rw [List.isEmpty_iff, List.filter_eq_nil_iff]
      rintro p hp
      rw [List.mem_map] at hp
      obtain ⟨f, hf, rfl⟩ := hp
      simp [hvalid f hf]
    unfold UploadHandler.handleUpload
    simp only [hie, Bool.false_eq_true, if_false, hinv, Bool.not_true, if_true]
    have herr : (files.enum.map (fun p =>
          if putOk p.1 then Sum.inl (Validation.sanitizeFilename p.2.name)
          else Sum.inr (p.2.name, putError p.1))).filterMap
        (fun o => match o with | .inl _ => none | .inr e => some e) =
        files.enum.filterMap (fun p =>
          if putOk p.1 then none else some (p.2.name, putError p.1)) := by
      rw [List.filterMap_map]
      apply List.filterMap_congr
      intro p _
      by_cases h : putOk p.1 <;> simp [h, Function.comp]
    refine ⟨?_, ?_, herr⟩
    · intro hall
      have : files.enum.filterMap (fun p =>
          if putOk p.1 then none else some (p.2.name, putError p.1)) = [] := by
        rw [List.filterMap_eq_nil_iff]
        intro p hp
        have hlt : p.1 < files.length := by
          rw [List.mem_enum_iff_getElem?] at hp
          obtain ⟨h, _⟩ := List.getElem?_eq_some.mp hp
          exact h
        simp [hall p.1 hlt]
      simp only [herr, this]
      rfl
    · rintro ⟨i, hi, hfail⟩
      have hmem : (i, files[i]) ∈ files.enum := by
        rw [List.mk_mem_enum_iff_getElem?]
        exact List.getElem?_eq_getElem hi
      have : files.enum.filterMap (fun p =>
          if putOk p.1 then none else some (p.2.name, putError p.1)) ≠ [] := by
        intro hnil
        rw [List.filterMap_eq_nil_iff] at hnil
        have := hnil _ hmem
        simp [hfail] at this
      simp only [herr]
      simp only [List.isEmpty_eq_false_iff_exists_mem] at *
      rcases List.exists_mem_of_ne_nil _ this with ⟨x, hx⟩
      have : (files.enum.filterMap (fun p =>
          if putOk p.1 then none else some (p.2.name, putError p.1))).isEmpty = false := by
        rw [List.isEmpty_eq_false_iff_exists_mem]
        exact ⟨x, hx⟩
      simp [this]

/-- Witness for claim C2: a batch with one invalid file is rejected with
400, and an all-valid batch whose second write fails is answered 206. -/
theorem claim_C2_witness :
    (UploadHandler.handleUpload
      [{ name := "a.jpg", size := 100, ftype := "image/jpeg", content := [255, 216, 255] },
       { name := "b.txt", size := 100, ftype := "text/plain", content := [1, 2, 3] }]
      10485760 (fun _ => true) (fun _ => "storage write failed")).status = 400 ∧
    (UploadHandler.handleUpload
      [{ name := "a.jpg", size := 100, ftype := "image/jpeg", content := [255, 216, 255] },
       { name := "b.jpg", size := 100, ftype := "image/jpeg", content := [255, 216, 255] }]
      10485760 (fun i => i == 0) (fun _ => "storage write failed")).status = 206 := by
  constructor
  · exact ((claim_C2_uploadBatch
      [{ name := "a.jpg", size := 100, ftype := "image/jpeg", content := [255, 216, 255] },
       { name := "b.txt", size := 100, ftype := "text/plain", content := [1, 2, 3] }]
      10485760 (fun _ => true) (fun _ => "storage write failed")).1
      ⟨{ name := "b.txt", size := 100, ftype := "text/plain", content := [1, 2, 3] },
        by decide, by decide⟩).1
  · exact ((claim_C2_uploadBatch
      [{ name := "a.jpg", size := 100, ftype := "image/jpeg", content := [255, 216, 255] },
       { name := "b.jpg", size := 100, ftype := "image/jpeg", content := [255, 216, 255] }]
      10485760 (fun i => i == 0) (fun _ => "storage write failed")).2
      (by decide) (by decide)).2.1 ⟨1, by decide, rfl⟩

/-- Claim C10: the upload handler never rejects a batch for its size:
every nonempty batch whose files all pass `validateFile` gets a storage
write attempted for every file — whatever the batch length — and a
201/206 response, since the handler checks files only with
`validateFile` and nothing enforces the 10-file cap of `validateFiles`. -/
theorem claim_C10_noBatchSizeCap (files : List Validation.File) (maxUploadSize : Nat)
    (putOk : Nat → Bool) (putError : Nat → String)
    (hne : files ≠ [])
    (hvalid : ∀ f ∈ files,
      (Validation.validateFile f (UploadHandler.uploadConstraints maxUploadSize)).valid = true) :
    (UploadHandler.handleUpload files maxUploadSize putOk putError).putCalls =
      files.map (fun f => f.name) ∧
    ((UploadHandler.handleUpload files maxUploadSize putOk putError).status = 201 ∨
      (UploadHandler.handleUpload files maxUploadSize putOk putError).status = 206) := by
  have hie : files.isEmpty = false := by
    cases files with
    | nil => exact absurd rfl hne
    | cons a t => rfl
  have hinv : ((files.map (fun f =>
      (f, Validation.validateFile f (UploadHandler.uploadConstraints maxUploadSize)))).filter
        (fun p => !p.2.valid)).isEmpty = true := by
    rw [List.isEmpty_iff, List.filter_eq_nil_iff]
    rintro p hp
    rw [List.mem_map] at hp
    obtain ⟨f, hf, rfl⟩ := hp
    simp [hvalid f hf]
  unfold UploadHandler.handleUpload
  simp only [hie, Bool.false_eq_true, if_false, hinv, Bool.not_true, if_true]
  refine ⟨trivial, ?_⟩
  cases h : ((files.enum.map (fun p =>
      if putOk p.1 then Sum.inl (Validation.sanitizeFilename p.2.name)
      else Sum.inr (p.2.name, putError p.1))).filterMap
        (fun o => match o with | .inl _ => none | .inr e => some e)).isEmpty with
  | true =>
    left
    rfl
  | false =>
    right
    rfl

/-- Witness for claim C10 at an 11-file batch (one over the `maxFiles`
cap of `validateFiles`): all eleven writes are attempted. -/
theorem claim_C10_witness :
    (UploadHandler.handleUpload
      [{ name := "f01.jpg", size := 100, ftype := "image/jpeg", content := [255, 216, 255] },
       { name := "f02.jpg", size := 100, ftype := "image/jpeg", content := [255, 216, 255] },
       { name := "f03.jpg", size := 100, ftype := "image/jpeg", content := [255, 216, 255] },
       { name := "f04.jpg", size := 100, ftype := "image/jpeg", content := [255, 216, 255] },
       { name := "f05.jpg", size := 100, ftype := "image/jpeg", content := [255, 216, 255] },
       { name := "f06.jpg", size := 100, ftype := "image/jpeg", content := [255, 216, 255] },
       { name := "f07.jpg", size := 100, ftype := "image/jpeg", content := [255, 216, 255] },
       { name := "f08.jpg", size := 100, ftype := "image/jpeg", content := [255, 216, 255] },
       { name := "f09.jpg", size := 100, ftype := "image/jpeg", content := [255, 216, 255] },
       { name := "f10.jpg", size := 100, ftype := "image/jpeg", content := [255, 216, 255] },
       { name := "f11.jpg", size := 100, ftype := "image/jpeg", content := [255, 216, 255] }]
      10485760 (fun _ => true) (fun _ => "storage write failed")).putCalls =
      ["f01.jpg", "f02.jpg", "f03.jpg", "f04.jpg", "f05.jpg", "f06.jpg", "f07.jpg",
       "f08.jpg", "f09.jpg", "f10.jpg", "f11.jpg"] := by
  have h := claim_C10_noBatchSizeCap
    [{ name := "f01.jpg", size := 100, ftype := "image/jpeg", content := [255, 216, 255] },
     { name := "f02.jpg", size := 100, ftype := "image/jpeg", content := [255, 216, 255] },
     { name := "f03.jpg", size := 100, ftype := "image/jpeg", content := [255, 216, 255] },
     { name := "f04.jpg", size := 100, ftype := "image/jpeg", content := [255, 216, 255] },
     { name := "f05.jpg", size := 100, ftype := "image/jpeg", content := [255, 216, 255] },
     { name := "f06.jpg", size := 100, ftype := "image/jpeg", content := [255, 216, 255] },
     { name := "f07.jpg", size := 100, ftype := "image/jpeg", content := [255, 216, 255] },
     { name := "f08.jpg", size := 100, ftype := "image/jpeg", content := [255, 216, 255] },
     { name := "f09.jpg", size := 100, ftype := "image/jpeg", content := [255, 216, 255] },
     { name := "f10.jpg", size := 100, ftype := "image/jpeg", content := [255, 216, 255] },
     { name := "f11.jpg", size := 100, ftype := "image/jpeg", content := [255, 216, 255] }]
    10485760 (fun _ => true) (fun _ => "storage write failed") (by decide) (by decide)
  rw [h.1]
  rfl
